import Mathlib

/-!
Verification of the body-measurement / apparel-size classification core of
the repository (src/single_person_processor.py, src/main.py).

The embedding below translates the Python source into Lean:
* Python floats are modelled as rationals (ℚ); Python ints as ℤ.
* The measurement dictionary is an association list `List (String × ℚ)`;
  Python dict access `m[k]` (which raises `KeyError` on a missing key) is
  modelled as `Option`-valued lookup, with `none` standing for the raised
  exception.
* `round(x, 2)` is modelled as round-half-to-even at two decimal places.
* The opaque neural model and the image-processing stage are abstracted as
  parameters: `proc : Except String Unit` stands for the outcome of
  `process_single_person`, and `model : ℤ → ℚ → ℚ → ℕ → ℚ` maps the
  metadata vector `[gender, height_cm, weight_kg]` (the images are fixed)
  to the 14-component output vector, indexed by position.
-/

namespace BodyMeasure

/-- The measurement dictionary of `predict_measurements`: association list
from measurement names to values (Python `Dict[str, float]`). -/
abbrev Measurements := List (String × ℚ)

/-- Python dict access `measurements[key]`, `none` when the key is absent. -/
def getMeas (m : Measurements) (k : String) : Option ℚ :=
  m.lookup k

/-- `MEASUREMENT_INDICES` from `SinglePersonPredictor`: each measurement
name together with its position in the model output vector. -/
def MEASUREMENT_INDICES : List (String × ℕ) :=
  [("ankle", 0), ("arm-length", 1), ("bicep", 2), ("calf", 3),
   ("chest", 4), ("forearm", 5), ("height", 6), ("hip", 7),
   ("leg-length", 8), ("shoulder-breadth", 9),
   ("shoulder-to-crotch", 10), ("thigh", 11), ("waist", 12), ("wrist", 13)]

/-- The closed vocabulary of the 14 measurement names, in the order the
source lists them. -/
def measurementNames : List String :=
  ["ankle", "arm-length", "bicep", "calf", "chest", "forearm", "height",
   "hip", "leg-length", "shoulder-breadth", "shoulder-to-crotch", "thigh",
   "waist", "wrist"]

/-- `SIZE_CHARTS[gender]['tshirt']`: ordered `(max_chest, max_shoulder,
label)` rows; gender 0 selects the male chart, anything else the female
chart, mirroring `'male' if gender == 0 else 'female'`. -/
def tshirtChart (gender : ℤ) : List (ℚ × ℚ × String) :=
  if gender = 0 then
    [(97, 42, "S"), (104, 45, "M"), (112, 48, "L"),
     (120, 51, "XL"), (128, 54, "XXL"), (136, 57, "XXXL")]
  else
    [(89, 38, "S"), (96, 41, "M"), (104, 44, "L"),
     (112, 47, "XL"), (120, 50, "XXL"), (128, 53, "XXXL")]

/-- `SIZE_CHARTS[gender]['pants']`: ordered `(max_waist, max_hip, size)`
rows, gender selected as for the t-shirt chart. -/
def pantsChart (gender : ℤ) : List (ℚ × ℚ × ℤ) :=
  if gender = 0 then
    [(76, 102, 30), (81, 107, 32), (86, 112, 34),
     (91, 117, 36), (97, 122, 38), (102, 127, 40), (107, 132, 42)]
  else
    [(66, 92, 26), (71, 97, 28), (76, 102, 30),
     (81, 107, 32), (86, 112, 34), (91, 117, 36), (97, 122, 38)]

/-- The `next((size for m1, m2, size in chart if v1 <= m1 and v2 <= m2),
default)` pattern used by both classifiers: first row both of whose bounds
are at least the subject values, else the default. -/
def firstFit {α : Type} (chart : List (ℚ × ℚ × α)) (v1 v2 : ℚ) (dflt : α) : α :=
  match chart with
  | [] => dflt
  | (m1, m2, s) :: rest =>
      if v1 ≤ m1 ∧ v2 ≤ m2 then s else firstFit rest v1 v2 dflt

/-- `calculate_tshirt_size`: chart scan on chest and shoulder-breadth with
default `'XXXL'`, then the weight override, then the tall marking. -/
def calculate_tshirt_size (gender : ℤ) (measurements : Measurements)
    (weight : ℚ) : Option String := do
  let chest ← getMeas measurements "chest"
  let shoulder_breadth ← getMeas measurements "shoulder-breadth"
  let base0 := firstFit (tshirtChart gender) chest shoulder_breadth "XXXL"
  let base1 := if (weight > 95 ∧ gender = 0) ∨ (weight > 80 ∧ gender = 1)
    then "XXL" else base0
  let height ← getMeas measurements "height"
  pure (if height > 180 then "Tall " ++ base1 else base1)

/-- `calculate_pants_size`: chart scan on waist and hip with default
`chart[-1][2]`, then `+= 2 if base_size < 40 else 0` for tall males. -/
def calculate_pants_size (gender : ℤ) (measurements : Measurements)
    (weight : ℚ) : Option ℤ := do
  let waist ← getMeas measurements "waist"
  let hip ← getMeas measurements "hip"
  let dflt ← ((pantsChart gender).getLast?).map (fun e => e.2.2)
  let base0 := firstFit (pantsChart gender) waist hip dflt
  let height ← getMeas measurements "height"
  let base1 := if height > 180 ∧ gender = 0
    then base0 + (if base0 < 40 then 2 else 0) else base0
  pure base1

/-- `calculate_apparel_size`: both sizes. -/
def calculate_apparel_size (gender : ℤ) (measurements : Measurements)
    (weight : ℚ) : Option (String × ℤ) := do
  let tshirt_size ← calculate_tshirt_size gender measurements weight
  let pants_size ← calculate_pants_size gender measurements weight
  pure (tshirt_size, pants_size)

/-- Round-half-to-even to an integer, the tie-breaking rule of Python
`round`. -/
def roundHalfEven (q : ℚ) : ℤ :=
  let f := ⌊q⌋
  if q - (f : ℚ) < 1/2 then f
  else if q - (f : ℚ) > 1/2 then f + 1
  else if f % 2 = 0 then f else f + 1

/-- `round(x, 2)`: round to two decimal places. -/
def round2 (q : ℚ) : ℚ := ((roundHalfEven (q * 100) : ℤ) : ℚ) / 100

/-- The dict comprehension of `predict_measurements`:
`{name: round(float(prediction[0][idx]), 2) for name, idx in
MEASUREMENT_INDICES.items()}`, over the model output vector `out`. -/
def measurementsFrom (out : ℕ → ℚ) : Measurements :=
  MEASUREMENT_INDICES.map (fun p => (p.1, round2 (out p.2)))

/-- The upper-body keys surfaced in the `"tshirt"` branch. -/
def upper_body_keys : List String :=
  ["chest", "shoulder-breadth", "bicep", "forearm", "wrist", "arm-length",
   "shoulder-to-crotch"]

/-- The lower-body keys surfaced in the `"pants"` branch. -/
def lower_body_keys : List String :=
  ["waist", "hip", "thigh", "calf", "ankle", "leg-length"]

/-- `{k: measurements[k] for k in keys if k in measurements}`. -/
def filterKeys (keys : List String) (m : Measurements) : Measurements :=
  keys.filterMap (fun k => (getMeas m k).map (fun v => (k, v)))

/-- The result dictionary of `predict_measurements`; each field is `some`
exactly when the corresponding key is placed in the Python result dict. -/
structure PredictionOutput where
  tshirt_size : Option String
  pants_size : Option ℤ
  body_measurements : Option Measurements
  upper_body_measurements : Option Measurements
  lower_body_measurements : Option Measurements
deriving Repr, DecidableEq

/-- `"Gender must be 0 (male) or 1 (female)."`. -/
def genderErr : String := "Gender must be 0 (male) or 1 (female)."

/-- `"Height must be between 100-250 cm."`. -/
def heightErr : String := "Height must be between 100-250 cm."

/-- `"Weight must be between 30-300 kg."`. -/
def weightErr : String := "Weight must be between 30-300 kg."

/-- The apparel-type validation message (the quotes around the three
admissible values written as escapes). -/
def apparelErr : String :=
  "Apparel type must be \x27tshirt\x27, \x27pants\x27, or \x27all\x27."

/-- A `KeyError` escaping from a size-calculation helper (impossible for
the dictionaries built by `predict_measurements`). -/
def keyErr : String := "KeyError"

/-- `predict_measurements`: validation in source order, then image
processing (abstracted as `proc`), then the model call (abstracted as
`model` applied to the metadata vector), then the three apparel branches.
A fall-through with an unknown apparel type (unreachable after
validation) returns the empty result dict, as the Python `if`/`elif`
chain does. -/
def predict_measurements (proc : Except String Unit)
    (model : ℤ → ℚ → ℚ → ℕ → ℚ) (gender : ℤ) (height_cm weight_kg : ℚ)
    (apparel_type : String) : Except String PredictionOutput :=
  if ¬(gender = 0 ∨ gender = 1) then .error genderErr
  else if ¬(100 ≤ height_cm ∧ height_cm ≤ 250) then .error heightErr
  else if ¬(30 ≤ weight_kg ∧ weight_kg ≤ 300) then .error weightErr
  else if ¬(apparel_type = "tshirt" ∨ apparel_type = "pants" ∨
            apparel_type = "all") then .error apparelErr
  else match proc with
    | .error e => .error e
    | .ok _ =>
      let measurements := measurementsFrom (model gender height_cm weight_kg)
      if apparel_type = "tshirt" then
        match calculate_tshirt_size gender measurements weight_kg with
        | none => .error keyErr
        | some ts =>
            .ok ⟨some ts, none, none,
                 some (filterKeys upper_body_keys measurements), none⟩
      else if apparel_type = "pants" then
        match calculate_pants_size gender measurements weight_kg with
        | none => .error keyErr
        | some ps =>
            .ok ⟨none, some ps, none, none,
                 some (filterKeys lower_body_keys measurements)⟩
      else if apparel_type = "all" then
        match calculate_apparel_size gender measurements weight_kg with
        | none => .error keyErr
        | some (ts, ps) => .ok ⟨some ts, some ps, some measurements, none, none⟩
      else .ok ⟨none, none, none, none, none⟩

/-- The fixed measurements used by the concrete test subjects below;
`chest`, `shoulder-breadth`, `height`, `waist` and `hip` vary. -/
def mkMeasurements (chest sb height waist hip : ℚ) : Measurements :=
  [("ankle", 22), ("arm-length", 52), ("bicep", 30), ("calf", 36),
   ("chest", chest), ("forearm", 25), ("height", height), ("hip", hip),
   ("leg-length", 78), ("shoulder-breadth", sb),
   ("shoulder-to-crotch", 60), ("thigh", 50), ("waist", waist),
   ("wrist", 16)]

/-- A measurement dictionary is well-formed when it carries all 14
measurement names. -/
def wellFormed (m : Measurements) : Bool :=
  measurementNames.all (fun k => (getMeas m k).isSome)

/-- The position of the t-shirt chart tier the subject fits under on both
axes simultaneously; the length of the chart (one past the last row) when
no tier fits, standing for the "XXXL" default. -/
def tshirtTierIdx (g : ℤ) (chest sb : ℚ) : ℕ :=
  (tshirtChart g).findIdx
    (fun e => decide (chest ≤ e.1) && decide (sb ≤ e.2.1))

/-- The first-fit scan either returns the row at some position `i` whose
bounds both hold while every earlier row fails, or no row fits and it
returns the default. -/
theorem firstFit_cases {α : Type} (v1 v2 : ℚ) (d : α)
    (l : List (ℚ × ℚ × α)) :
    (∃ (i : ℕ) (e : ℚ × ℚ × α), l[i]? = some e ∧ (v1 ≤ e.1 ∧ v2 ≤ e.2.1) ∧
      (∀ (j : ℕ) (e' : ℚ × ℚ × α), j < i → l[j]? = some e' → ¬(v1 ≤ e'.1 ∧ v2 ≤ e'.2.1)) ∧
      firstFit l v1 v2 d = e.2.2)
    ∨ ((∀ (i : ℕ) (e : ℚ × ℚ × α), l[i]? = some e → ¬(v1 ≤ e.1 ∧ v2 ≤ e.2.1)) ∧
      firstFit l v1 v2 d = d) := by
  induction l with
  | nil =>
      right
      refine ⟨?_, rfl⟩
      intro i e hi
      simp at hi
  | cons hd tl ih =>
      obtain ⟨m1, m2, s⟩ := hd
      by_cases hfit : v1 ≤ m1 ∧ v2 ≤ m2
      · left
        refine ⟨0, (m1, m2, s), by simp, hfit, ?_, by simp [firstFit, hfit]⟩
        intro j e' hj _
        omega
      · rcases ih with ⟨i, e, hi, he, hmin, heq⟩ | ⟨hall, heq⟩
        · left
          refine ⟨i + 1, e, by simpa using hi, he, ?_,
            by simpa [firstFit, hfit] using heq⟩
          intro j e' hj hsome
          cases j with
          | zero =>
              simp at hsome
              rw [← hsome]
              exact hfit
          | succ j =>
              exact hmin j e' (by omega) (by simpa using hsome)
        · right
          refine ⟨?_, by simpa [firstFit, hfit] using heq⟩
          intro i e hi
          cases i with
          | zero =>
              simp at hi
              rw [← hi]
              exact hfit
          | succ i =>
              exact hall i e (by simpa using hi)

/-- If predicate `q` implies predicate `p` pointwise, the first index
satisfying `p` is at most the first index satisfying `q`. -/
theorem findIdx_mono {α : Type} (p q : α → Bool) (l : List α)
    (himp : ∀ a, q a = true → p a = true) :
    l.findIdx p ≤ l.findIdx q := by
  induction l with
  | nil => simp
  | cons a t ih =>
      rw [List.findIdx_cons, List.findIdx_cons]
      cases hq : q a
      · cases hp : p a
        · simpa using ih
        · simp
      · rw [himp a hq]
        simp

/-- C1 helper: with the chest, shoulder-breadth and height entries in
hand, and neither the weight override nor the tall marking applicable,
`calculate_tshirt_size` is exactly the first-fit chart scan. -/
theorem tshirt_eq_firstFit (g : ℤ) (m : Measurements) (w chest sb h : ℚ)
    (hc : getMeas m "chest" = some chest)
    (hs : getMeas m "shoulder-breadth" = some sb)
    (hh : getMeas m "height" = some h)
    (hov : ¬((w > 95 ∧ g = 0) ∨ (w > 80 ∧ g = 1)))
    (hht : h ≤ 180) :
    calculate_tshirt_size g m w =
      some (firstFit (tshirtChart g) chest sb "XXXL") := by
  simp [calculate_tshirt_size, hc, hs, hh, hov, not_lt.mpr hht]

/-- C1: when the weight override and the tall marking do not apply, the
t-shirt size comes from scanning the gender chart in order for the first
row satisfying both the chest and the shoulder-breadth bound, defaulting
to "XXXL" when no row satisfies both. -/
theorem tshirt_chart_scan (g : ℤ) (m : Measurements) (w chest sb h : ℚ)
    (hc : getMeas m "chest" = some chest)
    (hs : getMeas m "shoulder-breadth" = some sb)
    (hh : getMeas m "height" = some h)
    (hov : ¬((w > 95 ∧ g = 0) ∨ (w > 80 ∧ g = 1)))
    (hht : h ≤ 180) :
    (∃ (i : ℕ) (e : ℚ × ℚ × String), (tshirtChart g)[i]? = some e ∧ (chest ≤ e.1 ∧ sb ≤ e.2.1) ∧
      (∀ (j : ℕ) (e' : ℚ × ℚ × String), j < i → (tshirtChart g)[j]? = some e' →
        ¬(chest ≤ e'.1 ∧ sb ≤ e'.2.1)) ∧
      calculate_tshirt_size g m w = some e.2.2)
    ∨ ((∀ (i : ℕ) (e : ℚ × ℚ × String), (tshirtChart g)[i]? = some e →
        ¬(chest ≤ e.1 ∧ sb ≤ e.2.1)) ∧
      calculate_tshirt_size g m w = some "XXXL") := by
  have hcalc := tshirt_eq_firstFit g m w chest sb h hc hs hh hov hht
  rcases firstFit_cases chest sb "XXXL" (tshirtChart g) with
    ⟨i, e, hi, he, hmin, heq⟩ | ⟨hall, heq⟩
  · left
    exact ⟨i, e, hi, he, hmin, by rw [hcalc, heq]⟩
  · right
    exact ⟨hall, by rw [hcalc, heq]⟩

/-- C1 witness: a male subject with chest 90 and shoulder-breadth 40 is
settled by the chart scan (here: its first row). -/
theorem tshirt_chart_scan_witness :
    (∃ (i : ℕ) (e : ℚ × ℚ × String), (tshirtChart 0)[i]? = some e ∧
      ((90 : ℚ) ≤ e.1 ∧ (40 : ℚ) ≤ e.2.1) ∧
      (∀ (j : ℕ) (e' : ℚ × ℚ × String), j < i → (tshirtChart 0)[j]? = some e' →
        ¬((90 : ℚ) ≤ e'.1 ∧ (40 : ℚ) ≤ e'.2.1)) ∧
      calculate_tshirt_size 0 (mkMeasurements 90 40 170 76 95) 70 =
        some e.2.2)
    ∨ ((∀ (i : ℕ) (e : ℚ × ℚ × String), (tshirtChart 0)[i]? = some e →
        ¬((90 : ℚ) ≤ e.1 ∧ (40 : ℚ) ≤ e.2.1)) ∧
      calculate_tshirt_size 0 (mkMeasurements 90 40 170 76 95) 70 =
        some "XXXL") :=
  tshirt_chart_scan 0 (mkMeasurements 90 40 170 76 95) 70 90 40 170
    (by decide) (by decide) (by decide) (by decide) (by decide)

/-- C2: when the weight override fires ((weight > 95 and male) or
(weight > 80 and female)) the base label is "XXL" no matter what the
chart scan selected; only the tall marking can still alter the result. -/
theorem tshirt_weight_override (g : ℤ) (m : Measurements) (w chest sb h : ℚ)
    (hc : getMeas m "chest" = some chest)
    (hs : getMeas m "shoulder-breadth" = some sb)
    (hh : getMeas m "height" = some h)
    (hov : (w > 95 ∧ g = 0) ∨ (w > 80 ∧ g = 1)) :
    calculate_tshirt_size g m w =
      some (if h > 180 then "Tall XXL" else "XXL") := by
  simp only [calculate_tshirt_size, hc, hs, hh, Option.some_bind, if_pos hov]
  by_cases hht : h > 180
  · simp [hht]
  · simp [hht]

/-- C2 witness: male, weight 100, chest 90 (chart tier "S"), height 170
yields exactly "XXL". -/
theorem tshirt_weight_override_witness :
    calculate_tshirt_size 0 (mkMeasurements 90 40 170 76 95) 100 =
      some "XXL" := by
  have h := tshirt_weight_override 0 (mkMeasurements 90 40 170 76 95) 100
    90 40 170 (by decide) (by decide) (by decide)
    (Or.inl ⟨by norm_num, rfl⟩)
  rw [h]
  norm_num

/-- C3: for two measurement sets agreeing on chest and shoulder-breadth,
one with height above 180 and one at most 180, the tall subject's label is
exactly "Tall " prepended to the short subject's label (so no marking is
added at height ≤ 180), and the marking is applied after the weight
override: an overridden tall subject gets exactly "Tall XXL". -/
theorem tshirt_tall_marking (g : ℤ) (m₁ m₂ : Measurements)
    (w chest sb h₁ h₂ : ℚ)
    (hc₁ : getMeas m₁ "chest" = some chest)
    (hs₁ : getMeas m₁ "shoulder-breadth" = some sb)
    (hh₁ : getMeas m₁ "height" = some h₁)
    (hc₂ : getMeas m₂ "chest" = some chest)
    (hs₂ : getMeas m₂ "shoulder-breadth" = some sb)
    (hh₂ : getMeas m₂ "height" = some h₂)
    (ht₁ : h₁ > 180) (ht₂ : h₂ ≤ 180) :
    ∃ s, calculate_tshirt_size g m₂ w = some s ∧
      calculate_tshirt_size g m₁ w = some ("Tall " ++ s) ∧
      (((w > 95 ∧ g = 0) ∨ (w > 80 ∧ g = 1)) →
        calculate_tshirt_size g m₁ w = some "Tall XXL") := by
  refine ⟨if (w > 95 ∧ g = 0) ∨ (w > 80 ∧ g = 1) then "XXL"
    else firstFit (tshirtChart g) chest sb "XXXL", ?_, ?_, ?_⟩
  · simp [calculate_tshirt_size, hc₂, hs₂, hh₂, not_lt.mpr ht₂]
  · simp [calculate_tshirt_size, hc₁, hs₁, hh₁, ht₁]
  · intro hov
    simp [calculate_tshirt_size, hc₁, hs₁, hh₁, ht₁, hov]

/-- C3 witness: male, weight 70, chest 90, shoulder-breadth 40 gives "S"
at height 170 and "Tall S" at height 185. -/
theorem tshirt_tall_marking_witness :
    ∃ s, calculate_tshirt_size 0 (mkMeasurements 90 40 170 76 95) 70 =
        some s ∧
      calculate_tshirt_size 0 (mkMeasurements 90 40 185 76 95) 70 =
        some ("Tall " ++ s) ∧
      ((((70 : ℚ) > 95 ∧ (0 : ℤ) = 0) ∨ ((70 : ℚ) > 80 ∧ (0 : ℤ) = 1)) →
        calculate_tshirt_size 0 (mkMeasurements 90 40 185 76 95) 70 =
          some "Tall XXL") :=
  tshirt_tall_marking 0 (mkMeasurements 90 40 185 76 95)
    (mkMeasurements 90 40 170 76 95) 70 90 40 185 170
    (by decide) (by decide) (by decide) (by decide) (by decide) (by decide)
    (by norm_num) (by norm_num)

/-- Helper: with the waist, hip and height entries in hand,
`calculate_pants_size` is the first-fit scan with the last chart row's
size as default, followed by the tall-male adjustment. -/
theorem pants_unfold (g : ℤ) (m : Measurements) (w waist hip h : ℚ)
    (hw : getMeas m "waist" = some waist)
    (hhip : getMeas m "hip" = some hip)
    (hht : getMeas m "height" = some h) :
    calculate_pants_size g m w =
      some (if h > 180 ∧ g = 0
        then firstFit (pantsChart g) waist hip (if g = 0 then 42 else 38) +
          (if firstFit (pantsChart g) waist hip (if g = 0 then 42 else 38) < 40
           then 2 else 0)
        else firstFit (pantsChart g) waist hip (if g = 0 then 42 else 38)) := by
  by_cases hg : g = 0
  · subst hg
    have hlast : ((pantsChart 0).getLast?).map (fun e => e.2.2) =
        some (42 : ℤ) := rfl
    simp [calculate_pants_size, hw, hhip, hht, hlast]
  · have hlast : ((pantsChart g).getLast?).map (fun e => e.2.2) =
        some (38 : ℤ) := by
      simp [pantsChart, hg]
    simp [calculate_pants_size, hw, hhip, hht, hlast, hg]

/-- C4: the pants size is the numeric size of the first chart row whose
waist and hip bounds both hold (then possibly adjusted for tall males);
when no row fits, the result is the last chart row's size — 42 for the
male chart, 38 for the female chart — for any height. -/
theorem pants_chart_scan (g : ℤ) (m : Measurements) (w waist hip h : ℚ)
    (hw : getMeas m "waist" = some waist)
    (hhip : getMeas m "hip" = some hip)
    (hht : getMeas m "height" = some h) :
    (∃ (i : ℕ) (e : ℚ × ℚ × ℤ), (pantsChart g)[i]? = some e ∧
      (waist ≤ e.1 ∧ hip ≤ e.2.1) ∧
      (∀ (j : ℕ) (e' : ℚ × ℚ × ℤ), j < i → (pantsChart g)[j]? = some e' →
        ¬(waist ≤ e'.1 ∧ hip ≤ e'.2.1)) ∧
      calculate_pants_size g m w =
        some (if h > 180 ∧ g = 0
          then e.2.2 + (if e.2.2 < 40 then 2 else 0) else e.2.2))
    ∨ ((∀ (i : ℕ) (e : ℚ × ℚ × ℤ), (pantsChart g)[i]? = some e →
        ¬(waist ≤ e.1 ∧ hip ≤ e.2.1)) ∧
      ((pantsChart g).getLast?).map (fun e => e.2.2) =
        some (if g = 0 then 42 else 38) ∧
      calculate_pants_size g m w = some (if g = 0 then (42 : ℤ) else 38)) := by
  have hcalc := pants_unfold g m w waist hip h hw hhip hht
  rcases firstFit_cases waist hip (if g = 0 then (42 : ℤ) else 38)
      (pantsChart g) with ⟨i, e, hi, he, hmin, heq⟩ | ⟨hall, heq⟩
  · left
    exact ⟨i, e, hi, he, hmin, by rw [hcalc, heq]⟩
  · right
    refine ⟨hall, ?_, ?_⟩
    · by_cases hg : g = 0
      · subst hg
        rfl
      · simp [pantsChart, hg]
    · rw [hcalc, heq]
      by_cases hg : g = 0
      · simp [hg]
      · simp [hg]

/-- C4 witness: waist 200 and hip 200 exceed every female chart row, so
the scan reports no fit and the result is the last row's size 38. -/
theorem pants_chart_scan_witness :
    (∃ (i : ℕ) (e : ℚ × ℚ × ℤ), (pantsChart 1)[i]? = some e ∧
      ((200 : ℚ) ≤ e.1 ∧ (200 : ℚ) ≤ e.2.1) ∧
      (∀ (j : ℕ) (e' : ℚ × ℚ × ℤ), j < i → (pantsChart 1)[j]? = some e' →
        ¬((200 : ℚ) ≤ e'.1 ∧ (200 : ℚ) ≤ e'.2.1)) ∧
      calculate_pants_size 1 (mkMeasurements 90 40 170 200 200) 70 =
        some (if (170 : ℚ) > 180 ∧ (1 : ℤ) = 0
          then e.2.2 + (if e.2.2 < 40 then 2 else 0) else e.2.2))
    ∨ ((∀ (i : ℕ) (e : ℚ × ℚ × ℤ), (pantsChart 1)[i]? = some e →
        ¬((200 : ℚ) ≤ e.1 ∧ (200 : ℚ) ≤ e.2.1)) ∧
      ((pantsChart 1).getLast?).map (fun e => e.2.2) =
        some (if (1 : ℤ) = 0 then 42 else 38) ∧
      calculate_pants_size 1 (mkMeasurements 90 40 170 200 200) 70 =
        some (if (1 : ℤ) = 0 then (42 : ℤ) else 38)) :=
  pants_chart_scan 1 (mkMeasurements 90 40 170 200 200) 70 200 200 170
    (by decide) (by decide) (by decide)

/-- C5: for a male whose measured height is above 180 the chart-selected
pants size is increased by 2 exactly when it is below 40 (sizes ≥ 40 are
unchanged); at height ≤ 180 it is unchanged, and for a female it is never
adjusted at any height. -/
theorem pants_height_adjust (m : Measurements) (w waist hip h : ℚ)
    (hw : getMeas m "waist" = some waist)
    (hhip : getMeas m "hip" = some hip)
    (hht : getMeas m "height" = some h) :
    (h > 180 → calculate_pants_size 0 m w =
      some (if firstFit (pantsChart 0) waist hip 42 < 40
        then firstFit (pantsChart 0) waist hip 42 + 2
        else firstFit (pantsChart 0) waist hip 42))
    ∧ (h ≤ 180 → calculate_pants_size 0 m w =
      some (firstFit (pantsChart 0) waist hip 42))
    ∧ calculate_pants_size 1 m w =
      some (firstFit (pantsChart 1) waist hip 38) := by
  refine ⟨?_, ?_, ?_⟩
  · intro hh
    rw [pants_unfold 0 m w waist hip h hw hhip hht]
    by_cases hb : firstFit (pantsChart 0) waist hip (42 : ℤ) < 40 <;>
      simp [hh, hb]
  · intro hh
    rw [pants_unfold 0 m w waist hip h hw hhip hht]
    simp [not_lt.mpr hh]
  · rw [pants_unfold 1 m w waist hip h hw hhip hht]
    simp

/-- C5 witness: male at height 190 — chart size 38 (waist 97, hip 122)
becomes 40, while chart size 40 (waist 102, hip 127) stays 40. -/
theorem pants_height_adjust_witness :
    calculate_pants_size 0 (mkMeasurements 90 40 190 97 122) 70 =
      some 40 ∧
    calculate_pants_size 0 (mkMeasurements 90 40 190 102 127) 70 =
      some 40 := by
  constructor
  · have h := (pants_height_adjust (mkMeasurements 90 40 190 97 122) 70
      97 122 190 (by decide) (by decide) (by decide)).1 (by norm_num)
    rw [h]
    decide
  · have h := (pants_height_adjust (mkMeasurements 90 40 190 102 127) 70
      102 127 190 (by decide) (by decide) (by decide)).1 (by norm_num)
    rw [h]
    decide

/-- The dictionary built from the model output always answers the chest
lookup (and analogously every other key): all 14 keys are present. -/
theorem calc_tshirt_mf_isSome (g : ℤ) (v : ℕ → ℚ) (w : ℚ) :
    (calculate_tshirt_size g (measurementsFrom v) w).isSome := rfl

/-- The male pants calculation over a model-built dictionary succeeds. -/
theorem calc_pants_mf_isSome0 (v : ℕ → ℚ) (w : ℚ) :
    (calculate_pants_size 0 (measurementsFrom v) w).isSome := rfl

/-- The female pants calculation over a model-built dictionary succeeds. -/
theorem calc_pants_mf_isSome1 (v : ℕ → ℚ) (w : ℚ) :
    (calculate_pants_size 1 (measurementsFrom v) w).isSome := rfl

/-- C6: with every field in range the estimator accepts (and with the
image stage succeeding it returns a result); any field out of range is
rejected with the validation message naming that field, for every image
stage and every model — so estimation never runs on out-of-range
values. -/
theorem validation_gates (proc : Except String Unit)
    (model : ℤ → ℚ → ℚ → ℕ → ℚ) (g : ℤ) (h w : ℚ) (a : String) :
    (¬(g = 0 ∨ g = 1) →
      predict_measurements proc model g h w a = .error genderErr)
    ∧ ((g = 0 ∨ g = 1) → ¬(100 ≤ h ∧ h ≤ 250) →
      predict_measurements proc model g h w a = .error heightErr)
    ∧ ((g = 0 ∨ g = 1) → (100 ≤ h ∧ h ≤ 250) → ¬(30 ≤ w ∧ w ≤ 300) →
      predict_measurements proc model g h w a = .error weightErr)
    ∧ ((g = 0 ∨ g = 1) → (100 ≤ h ∧ h ≤ 250) → (30 ≤ w ∧ w ≤ 300) →
      ¬(a = "tshirt" ∨ a = "pants" ∨ a = "all") →
      predict_measurements proc model g h w a = .error apparelErr)
    ∧ ((g = 0 ∨ g = 1) → (100 ≤ h ∧ h ≤ 250) → (30 ≤ w ∧ w ≤ 300) →
      (a = "tshirt" ∨ a = "pants" ∨ a = "all") →
      ∃ out, predict_measurements (.ok ()) model g h w a = .ok out) := by
  refine ⟨?_, ?_, ?_, ?_, ?_⟩
  · intro hbad
    unfold predict_measurements
    rw [if_pos hbad]
  · intro hg hbad
    unfold predict_measurements
    rw [if_neg (not_not_intro hg), if_pos hbad]
  · intro hg hh hbad
    unfold predict_measurements
    rw [if_neg (not_not_intro hg), if_neg (not_not_intro hh), if_pos hbad]
  · intro hg hh hw hbad
    unfold predict_measurements
    rw [if_neg (not_not_intro hg), if_neg (not_not_intro hh),
      if_neg (not_not_intro hw), if_pos hbad]
  · intro hg hh hw ha
    unfold predict_measurements
    rw [if_neg (not_not_intro hg), if_neg (not_not_intro hh),
      if_neg (not_not_intro hw), if_neg (not_not_intro ha)]
    obtain ⟨ts, hts⟩ := Option.isSome_iff_exists.mp
      (calc_tshirt_mf_isSome g (model g h w) w)
    have hps : ∃ ps, calculate_pants_size g (measurementsFrom (model g h w))
        w = some ps := by
      rcases hg with rfl | rfl
      · exact Option.isSome_iff_exists.mp
          (calc_pants_mf_isSome0 (model 0 h w) w)
      · exact Option.isSome_iff_exists.mp
          (calc_pants_mf_isSome1 (model 1 h w) w)
    obtain ⟨ps, hps⟩ := hps
    have hap : calculate_apparel_size g (measurementsFrom (model g h w)) w =
        some (ts, ps) := by
      simp [calculate_apparel_size, hts, hps]
    rcases ha with rfl | rfl | rfl
    · simp [hts]
    · simp [hps]
    · simp [hap]

/-- C6 witness: each validation gate fires on a concrete bad input even
when the image stage would fail, and a fully valid input is accepted. -/
theorem validation_gates_witness :
    predict_measurements (.error "boom") (fun _ _ _ _ => 0) 5 170 70 "all" =
      .error genderErr ∧
    predict_measurements (.error "boom") (fun _ _ _ _ => 0) 0 90 70 "all" =
      .error heightErr ∧
    predict_measurements (.error "boom") (fun _ _ _ _ => 0) 0 170 20 "all" =
      .error weightErr ∧
    predict_measurements (.error "boom") (fun _ _ _ _ => 0) 0 170 70 "hat" =
      .error apparelErr ∧
    ∃ out, predict_measurements (.ok ()) (fun _ _ _ _ => 0) 0 170 70 "all" =
      .ok out := by
  refine ⟨?_, ?_, ?_, ?_, ?_⟩
  · exact (validation_gates _ _ 5 170 70 "all").1 (by decide)
  · exact (validation_gates _ _ 0 90 70 "all").2.1 (by decide) (by decide)
  · exact (validation_gates _ _ 0 170 20 "all").2.2.1 (by decide)
      (by decide) (by decide)
  · exact (validation_gates _ _ 0 170 70 "hat").2.2.2.1 (by decide)
      (by decide) (by decide) (by decide)
  · exact (validation_gates (.ok ()) _ 0 170 70 "all").2.2.2.2 (by decide)
      (by decide) (by decide) (by decide)

/-- A value rounded to two decimal places is an integer number of
hundredths. -/
theorem round2_hundredths (q : ℚ) :
    round2 q * 100 = ((roundHalfEven (q * 100) : ℤ) : ℚ) := by
  rw [round2]
  field_simp

/-- C7: the dictionary built by a successful prediction carries exactly
the 14 fixed keys in the source's order, each value is the model output
at that key's index rounded to two decimal places (an integer number of
hundredths), and the full dictionary is built whatever the apparel type:
each branch computes its sizes from the full dictionary and surfaces the
corresponding subset. -/
theorem measurement_set_shape (model : ℤ → ℚ → ℚ → ℕ → ℚ) (g : ℤ)
    (h w : ℚ) (hg : g = 0 ∨ g = 1) (hh : 100 ≤ h ∧ h ≤ 250)
    (hw : 30 ≤ w ∧ w ≤ 300) :
    (measurementsFrom (model g h w)).map Prod.fst = measurementNames
    ∧ (∀ p ∈ measurementsFrom (model g h w),
        ∃ n : ℤ, p.2 * 100 = (n : ℚ))
    ∧ (∀ name idx, (name, idx) ∈ MEASUREMENT_INDICES →
        getMeas (measurementsFrom (model g h w)) name =
          some (round2 (model g h w idx)))
    ∧ (∀ a, (a = "tshirt" ∨ a = "pants" ∨ a = "all") →
        ∃ out, predict_measurements (.ok ()) model g h w a = .ok out ∧
          (a = "tshirt" → out.tshirt_size =
              calculate_tshirt_size g (measurementsFrom (model g h w)) w ∧
            out.upper_body_measurements = some (filterKeys upper_body_keys
              (measurementsFrom (model g h w)))) ∧
          (a = "pants" → out.pants_size =
              calculate_pants_size g (measurementsFrom (model g h w)) w ∧
            out.lower_body_measurements = some (filterKeys lower_body_keys
              (measurementsFrom (model g h w)))) ∧
          (a = "all" →
            out.body_measurements = some (measurementsFrom (model g h w)) ∧
            out.tshirt_size =
              calculate_tshirt_size g (measurementsFrom (model g h w)) w ∧
            out.pants_size =
              calculate_pants_size g (measurementsFrom (model g h w)) w)) := by
  refine ⟨rfl, ?_, ?_, ?_⟩
  · intro p hp
    obtain ⟨q, _, rfl⟩ := List.mem_map.mp hp
    exact ⟨roundHalfEven (model g h w q.2 * 100), round2_hundredths _⟩
  · intro name idx hmem
    fin_cases hmem <;> rfl
  · intro a ha
    obtain ⟨ts, hts⟩ := Option.isSome_iff_exists.mp
      (calc_tshirt_mf_isSome g (model g h w) w)
    have hps : ∃ ps, calculate_pants_size g (measurementsFrom (model g h w))
        w = some ps := by
      rcases hg with rfl | rfl
      · exact Option.isSome_iff_exists.mp
          (calc_pants_mf_isSome0 (model 0 h w) w)
      · exact Option.isSome_iff_exists.mp
          (calc_pants_mf_isSome1 (model 1 h w) w)
    obtain ⟨ps, hps⟩ := hps
    have hap : calculate_apparel_size g (measurementsFrom (model g h w)) w =
        some (ts, ps) := by
      simp [calculate_apparel_size, hts, hps]
    have hu : predict_measurements (.ok ()) model g h w a =
        predict_measurements (.ok ()) model g h w a := rfl
    unfold predict_measurements
    rw [if_neg (not_not_intro hg), if_neg (not_not_intro hh),
      if_neg (not_not_intro hw), if_neg (not_not_intro ha)]
    rcases ha with rfl | rfl | rfl
    · refine ⟨⟨some ts, none, none, some (filterKeys upper_body_keys
        (measurementsFrom (model g h w))), none⟩, by simp [hts], ?_, ?_, ?_⟩
      · intro _
        exact ⟨hts.symm, rfl⟩
      · intro hcon
        simp at hcon
      · intro hcon
        simp at hcon
    · refine ⟨⟨none, some ps, none, none, some (filterKeys lower_body_keys
        (measurementsFrom (model g h w)))⟩, by simp [hps], ?_, ?_, ?_⟩
      · intro hcon
        simp at hcon
      · intro _
        exact ⟨hps.symm, rfl⟩
      · intro hcon
        simp at hcon
    · refine ⟨⟨some ts, some ps, some (measurementsFrom (model g h w)),
        none, none⟩, by simp [hap], ?_, ?_, ?_⟩
      · intro hcon
        simp at hcon
      · intro hcon
        simp at hcon
      · intro _
        exact ⟨rfl, hts.symm, hps.symm⟩

/-- C7 witness: the key list of a concretely built measurement dictionary
is exactly the 14-name vocabulary. -/
theorem measurement_set_shape_witness :
    (measurementsFrom ((fun _ _ _ _ => (50 : ℚ)) (0 : ℤ) (170 : ℚ)
      (70 : ℚ))).map Prod.fst = measurementNames :=
  (measurement_set_shape (fun _ _ _ _ => (50 : ℚ)) 0 170 70 (by decide)
    (by decide) (by decide)).1

/-- The first-fit scan returns the row at the first index whose bounds
both hold, the default when that index is past the end. -/
theorem firstFit_eq_findIdx {α : Type} (v1 v2 : ℚ) (d : α)
    (l : List (ℚ × ℚ × α)) :
    firstFit l v1 v2 d =
      (l[l.findIdx (fun e => decide (v1 ≤ e.1) && decide (v2 ≤ e.2.1))]?).elim
        d (fun e => e.2.2) := by
  induction l with
  | nil => rfl
  | cons hd tl ih =>
      obtain ⟨m1, m2, s⟩ := hd
      rw [List.findIdx_cons]
      by_cases hfit : v1 ≤ m1 ∧ v2 ≤ m2
      · have hb : (decide (v1 ≤ m1) && decide (v2 ≤ m2)) = true := by
          simp [hfit.1, hfit.2]
        simp [firstFit, hfit, hb]
      · have hb : (decide (v1 ≤ m1) && decide (v2 ≤ m2)) = false := by
          rcases not_and_or.mp hfit with hno | hno <;> simp [hno]
        simp [firstFit, hfit, hb, ih]

/-- C8: the selected t-shirt chart tier index never decreases when chest
and shoulder-breadth grow (the no-fit default counting as the index one
past the last row), and that index is exactly what the source's chart
scan selects. -/
theorem tshirt_tier_monotone (g : ℤ) (c c' sb sb' : ℚ)
    (hc : c ≤ c') (hs : sb ≤ sb') :
    tshirtTierIdx g c sb ≤ tshirtTierIdx g c' sb' ∧
    ∀ d : String, firstFit (tshirtChart g) c sb d =
      ((tshirtChart g)[tshirtTierIdx g c sb]?).elim d (fun e => e.2.2) := by
  constructor
  · apply findIdx_mono
    intro e he
    simp only [Bool.and_eq_true, decide_eq_true_eq] at he ⊢
    exact ⟨le_trans hc he.1, le_trans hs he.2⟩
  · intro d
    exact firstFit_eq_findIdx c sb d (tshirtChart g)

/-- C8 witness: growing chest 90 → 110 and shoulder-breadth 40 → 46 moves
the male tier index monotonically. -/
theorem tshirt_tier_monotone_witness :
    tshirtTierIdx 0 90 40 ≤ tshirtTierIdx 0 110 46 ∧
    ∀ d : String, firstFit (tshirtChart 0) 90 40 d =
      ((tshirtChart 0)[tshirtTierIdx 0 90 40]?).elim d (fun e => e.2.2) :=
  tshirt_tier_monotone 0 90 110 40 46 (by norm_num) (by norm_num)

/-- C9: on a well-formed measurement dictionary (all 14 keys present) both
classifiers always produce a value — the t-shirt function a label, the
pants function an integer — for either gender and any weight. -/
theorem sizes_total (g : ℤ) (m : Measurements) (w : ℚ)
    (hg : g = 0 ∨ g = 1) (hm : wellFormed m = true) :
    (∃ s, calculate_tshirt_size g m w = some s) ∧
    (∃ n, calculate_pants_size g m w = some n) := by
  simp only [wellFormed, measurementNames, List.all_cons, List.all_nil,
    Bool.and_eq_true, Option.isSome_iff_exists] at hm
  obtain ⟨-, -, -, -, ⟨chest, hc⟩, -, ⟨h, hh⟩, ⟨hip, hhip⟩, -, ⟨sb, hs⟩,
    -, -, ⟨waist, hwst⟩, -, -⟩ := hm
  constructor
  · have hsome : (calculate_tshirt_size g m w).isSome := by
      simp [calculate_tshirt_size, hc, hs, hh]
    exact Option.isSome_iff_exists.mp hsome
  · exact ⟨_, pants_unfold g m w waist hip h hwst hhip hh⟩

/-- C9 witness: both classifiers succeed on a concrete well-formed
dictionary. -/
theorem sizes_total_witness :
    (∃ s, calculate_tshirt_size 0 (mkMeasurements 90 40 170 76 95) 70 =
      some s) ∧
    (∃ n, calculate_pants_size 0 (mkMeasurements 90 40 170 76 95) 70 =
      some n) :=
  sizes_total 0 (mkMeasurements 90 40 170 76 95) 70 (Or.inl rfl) (by decide)

/-- C10: the size results do not depend on the caller-supplied height
once the predicted measurements are fixed: two valid heights whose model
outputs agree produce identical prediction results, for every image stage
and apparel type. -/
theorem height_input_independence (proc : Except String Unit)
    (model : ℤ → ℚ → ℚ → ℕ → ℚ) (g : ℤ) (w : ℚ) (a : String) (h₁ h₂ : ℚ)
    (hv₁ : 100 ≤ h₁ ∧ h₁ ≤ 250) (hv₂ : 100 ≤ h₂ ∧ h₂ ≤ 250)
    (hmeas : model g h₁ w = model g h₂ w) :
    predict_measurements proc model g h₁ w a =
      predict_measurements proc model g h₂ w a := by
  unfold predict_measurements
  rw [if_neg (not_not_intro hv₁), if_neg (not_not_intro hv₂), hmeas]

/-- C10 witness: heights 170 and 190 with the same (constant) model
output give the same result. -/
theorem height_input_independence_witness :
    predict_measurements (.ok ()) (fun _ _ _ _ => (50 : ℚ)) 0 170 70
      "all" = predict_measurements (.ok ()) (fun _ _ _ _ => (50 : ℚ)) 0
      190 70 "all" :=
  height_input_independence (.ok ()) (fun _ _ _ _ => (50 : ℚ)) 0 70 "all"
    170 190 (by decide) (by decide) rfl

end BodyMeasure
